import Mathlib

/-!
Shallow embedding of vilsuo/Phonebook-backend.

The repository contains progressively refined iterations of one Express
server (src/index.js) plus a model module (src/models/person.js) and a
standalone CLI script (src/unnamed).  The final server iteration
(src/index.js, the last document: /info via estimatedDocumentCount, PUT
with runValidators, centralized errorHandler with CastError and
ValidationError branches) is embedded here, together with the mongoose
schema of src/models/person.js and, for comparison, the number-validating
schema of the CLI script.

The record store is a list of documents; a mongo ObjectId is a string
that casts iff it is 24 hex characters or 12 characters long.  Each route
handler is a pure function from the request data and the store to an HTTP
response and the resulting store.
-/

namespace Phonebook

/-- A JSON value as sent over the wire (objects keep field order). -/
inductive JsonValue where
  | null : JsonValue
  | str : String → JsonValue
  | num : Int → JsonValue
  | obj : List (String × JsonValue) → JsonValue
  | arr : List JsonValue → JsonValue

/-- A response body: `res.json` sends JSON, `res.send` on a string sends
a `text/html` fragment, `res.end()` sends an empty body. -/
inductive RespBody where
  | json : JsonValue → RespBody
  | html : String → RespBody
  | empty : RespBody

/-- An HTTP response: status code and body. -/
structure Response where
  status : Nat
  body : RespBody

/-- A stored document of the `Person` model (src/models/person.js):
mongo assigns `_id` and the versioning field `__v`; `name` is a String,
`number` is an optional String (the schema does not require it). -/
structure Person where
  _id : String
  name : String
  number : Option String
  __v : Int
deriving DecidableEq, Repr

/-- A parsed JSON request body as the handlers read it: `body.name` and
`body.number`, either of which may be absent (undefined). -/
structure ReqBody where
  name : Option String
  number : Option String
deriving DecidableEq, Repr

/-- Hexadecimal digit test for ObjectId casting. -/
def isHexChar (c : Char) : Bool :=
  c.isDigit || (decide ('a'.toNat ≤ c.toNat) && decide (c.toNat ≤ 'f'.toNat))
    || (decide ('A'.toNat ≤ c.toNat) && decide (c.toNat ≤ 'F'.toNat))

/-- A string casts to a mongo ObjectId iff it is a 24-character hex
string or any 12-character string; everything else raises a CastError. -/
def isValidObjectId (s : String) : Bool :=
  (s.length == 24 && s.toList.all isHexChar) || s.length == 12

/-- Store-layer errors that handlers forward with `next(error)`. -/
inductive DbError where
  | castError : DbError
  | validationError : String → DbError

/-- The centralized error middleware of the final server iteration
(src/index.js): a CastError becomes 400 `{error: "malformatted id"}`, a
ValidationError becomes 400 `{error: error.message}`. -/
def errorHandler : DbError → Response
  | .castError =>
      { status := 400, body := .json (.obj [("error", .str "malformatted id")]) }
  | .validationError msg =>
      { status := 400, body := .json (.obj [("error", .str msg)]) }

/-- Set a field in the field list of a JSON object (JS assignment:
overwrite in place if present, else append). -/
def setField (fs : List (String × JsonValue)) (k : String) (v : JsonValue) :
    List (String × JsonValue) :=
  if fs.any (fun f => f.1 == k) then
    fs.map (fun f => if f.1 == k then (k, v) else f)
  else fs ++ [(k, v)]

/-- Delete a field from the field list of a JSON object (JS delete). -/
def deleteField (fs : List (String × JsonValue)) (k : String) :
    List (String × JsonValue) :=
  fs.filter (fun f => f.1 != k)

/-- The plain-object form of a document before the `toJSON` transform
runs: `_id`, the schema paths, and `__v`. -/
def documentFields (p : Person) : List (String × JsonValue) :=
  [("_id", .str p._id), ("name", .str p.name)]
    ++ (match p.number with
        | some n => [("number", .str n)]
        | none => [])
    ++ [("__v", .num p.__v)]

/-- The `toJSON` transform set on `personSchema` (src/models/person.js):
`returnedObject.id = returnedObject._id.toString(); delete
returnedObject._id; delete returnedObject.__v`. -/
def toJSON (p : Person) : List (String × JsonValue) :=
  deleteField (deleteField (setField (documentFields p) "id" (.str p._id)) "_id") "__v"

/-- GET /api/persons (final iteration): `Person.find({})` then
`res.json(notes)` — 200 with the serialized array. -/
def getPersons (store : List Person) : Response :=
  { status := 200, body := .json (.arr (store.map (fun p => .obj (toJSON p)))) }

/-- GET /info (final iteration): `Person.estimatedDocumentCount()` then
`res.send` of the HTML fragment with the count and the current date. -/
def getInfo (now : String) (store : List Person) : Response :=
  { status := 200,
    body := .html ("Phonebook has info for " ++ toString store.length
      ++ " people<br/>" ++ now) }

/-- GET /api/persons/:id (final iteration): `Person.findById`; a found
person is sent as JSON, a missing one gets `res.status(404).end()`, a
CastError goes to the error middleware. -/
def getPersonById (id : String) (store : List Person) : Response :=
  if isValidObjectId id then
    match store.find? (fun p => p._id == id) with
    | some p => { status := 200, body := .json (.obj (toJSON p)) }
    | none => { status := 404, body := .empty }
  else errorHandler .castError

/-- Mongoose validation of the `name` path on save
(src/models/person.js: `type: String, minLength: 3, required: true`):
returns the validation error message, if any.  `required` fails on a
missing or empty string; `minLength` fails below 3 characters. -/
def nameValidationError : Option String → Option String
  | none => some "Person validation failed: name: Path `name` is required."
  | some s =>
      if s == "" then
        some "Person validation failed: name: Path `name` is required."
      else if s.length < 3 then
        some ("Person validation failed: name: Path `name` (`" ++ s
          ++ "`) is shorter than the minimum allowed length (3).")
      else none

/-- POST /api/persons (final iteration): builds `new Person({name,
number: body.number})` and saves it; a ValidationError is forwarded to
the error middleware, a saved person is sent back with `res.json`.  The
schema places no constraint on `number` (and the handler carries the
comment `TODO check for - if body contains number`). -/
def createPerson (body : ReqBody) (newId : String) (store : List Person) :
    Response × List Person :=
  match nameValidationError body.name with
  | some msg => (errorHandler (.validationError msg), store)
  | none =>
      let p : Person :=
        { _id := newId, name := body.name.getD "", number := body.number, __v := 0 }
      ({ status := 200, body := .json (.obj (toJSON p)) }, store ++ [p])

/-- PUT /api/persons/:id (final iteration):
`Person.findByIdAndUpdate(id, {number: body.number}, {new: true,
runValidators: true, context: query})` then `res.json(updatedPerson)`.
An absent `body.number` (undefined) is stripped from the update
document, so the stored number is kept; the schema has no validators on
`number`, so `runValidators` never rejects.  A missing document makes
`findByIdAndUpdate` resolve with `null`, and `res.json(null)` is sent
with status 200.  A CastError goes to the error middleware. -/
def updatePersonById (id : String) (body : ReqBody) (store : List Person) :
    Response × List Person :=
  if isValidObjectId id then
    match store.find? (fun p => p._id == id) with
    | some p =>
        let updated : Person :=
          { p with number := match body.number with
                             | some n => some n
                             | none => p.number }
        ({ status := 200, body := .json (.obj (toJSON updated)) },
         store.map (fun q => if q._id == id then updated else q))
    | none => ({ status := 200, body := .json .null }, store)
  else (errorHandler .castError, store)

/-- DELETE /api/persons/:id (final iteration):
`Person.findByIdAndRemove` then `res.status(204).end()`, whether or not
a document was removed; a CastError goes to the error middleware. -/
def deletePersonById (id : String) (store : List Person) :
    Response × List Person :=
  if isValidObjectId id then
    ({ status := 204, body := .empty }, store.filter (fun p => p._id != id))
  else (errorHandler .castError, store)

/-- The custom number validator in the schema of the CLI script
(src/unnamed): the regex two-or-three digits, hyphen, digits. -/
def numberValidator (value : String) : Bool :=
  match value.splitOn "-" with
  | [a, b] =>
      (a.length == 2 || a.length == 3) && a.toList.all Char.isDigit
        && b != "" && b.toList.all Char.isDigit
  | _ => false

/-- The `number` path in the schema of the CLI script (src/unnamed):
`type: String, minLength: 8, validate: [numberValidator, ...]` — not
required, but a present value needs length at least 8 and the pattern. -/
def cliNumberValid : Option String → Bool
  | none => true
  | some s => decide (8 ≤ s.length) && numberValidator s

/-- Number of records in a list-all response. -/
def listCount (r : Response) : Nat :=
  match r.body with
  | .json (.arr xs) => xs.length
  | _ => 0

/-- A concrete stored record used to instantiate the theorems. -/
def arto : Person :=
  { _id := "aaaaaaaaaaaaaaaaaaaaaaaa", name := "Arto Hellas",
    number := some "040-123456", __v := 0 }

/-- Filtering a list twice with the same predicate equals filtering it
once. -/
theorem filter_self_idem (f : Person → Bool) (l : List Person) :
    (l.filter f).filter f = l.filter f := by
  induction l with
  | nil => rfl
  | cons a t ih =>
      by_cases h : f a = true <;> simp [List.filter_cons, h, ih]

/-- Claim C4: for every get-by-id request whose path id does not cast to
a store key, the final server responds 400 with `{error: "malformatted
id"}` (and in particular never 500). -/
theorem get_malformed_id_400 (id : String) (store : List Person)
    (h : isValidObjectId id = false) :
    getPersonById id store =
      { status := 400, body := .json (.obj [("error", .str "malformatted id")]) } ∧
    (getPersonById id store).status ≠ 500 := by
  have e : getPersonById id store =
      { status := 400, body := .json (.obj [("error", .str "malformatted id")]) } := by
    simp [getPersonById, h, errorHandler]
  exact ⟨e, by simp [e]⟩

/-- Witness for C4 at the malformed id "123" on the empty store. -/
theorem get_malformed_id_400_witness :
    isValidObjectId "123" = false ∧
    (getPersonById "123" [] =
      { status := 400, body := .json (.obj [("error", .str "malformatted id")]) } ∧
    (getPersonById "123" ([] : List Person)).status ≠ 500) :=
  ⟨by decide, get_malformed_id_400 "123" [] (by decide)⟩

/-- Claim C7: for every get-by-id request whose path id is well formed
but names no stored record, the final server responds 404 with an empty
body. -/
theorem get_nonexistent_404 (id : String) (store : List Person)
    (h1 : isValidObjectId id = true)
    (h2 : store.find? (fun p => p._id == id) = none) :
    getPersonById id store = { status := 404, body := .empty } := by
  simp [getPersonById, h1, h2]

/-- Witness for C7 at a well-formed id on the empty store. -/
theorem get_nonexistent_404_witness :
    isValidObjectId "aaaaaaaaaaaaaaaaaaaaaaaa" = true ∧
    ([] : List Person).find? (fun p => p._id == "aaaaaaaaaaaaaaaaaaaaaaaa") = none ∧
    getPersonById "aaaaaaaaaaaaaaaaaaaaaaaa" [] = { status := 404, body := .empty } :=
  ⟨by decide, rfl, get_nonexistent_404 "aaaaaaaaaaaaaaaaaaaaaaaa" [] (by decide) rfl⟩

/-- Claim C10: for every delete request whose path id does not cast to a
store key, the final server responds 400 with `{error: "malformatted
id"}` rather than 204, and the store is unchanged. -/
theorem delete_malformed_id_400 (id : String) (store : List Person)
    (h : isValidObjectId id = false) :
    deletePersonById id store =
      ({ status := 400, body := .json (.obj [("error", .str "malformatted id")]) },
       store) ∧
    (deletePersonById id store).1.status ≠ 204 := by
  have e : deletePersonById id store =
      ({ status := 400, body := .json (.obj [("error", .str "malformatted id")]) },
       store) := by
    simp [deletePersonById, h, errorHandler]
  exact ⟨e, by simp [e]⟩

/-- Witness for C10 at the malformed id "123" on a one-record store. -/
theorem delete_malformed_id_400_witness :
    isValidObjectId "123" = false ∧
    (deletePersonById "123" [arto] =
      ({ status := 400, body := .json (.obj [("error", .str "malformatted id")]) },
       [arto]) ∧
    (deletePersonById "123" [arto]).1.status ≠ 204) :=
  ⟨by decide, delete_malformed_id_400 "123" [arto] (by decide)⟩

/-- Claim C8: delete is idempotent for every well-formed id: the first
delete responds 204 with an empty body and leaves the store without the
record (also when no record had that id), and a second identical delete
again responds 204 and leaves the store exactly as after the first. -/
theorem delete_idempotent (id : String) (store : List Person)
    (h : isValidObjectId id = true) :
    (deletePersonById id store).1 = { status := 204, body := .empty } ∧
    (deletePersonById id store).2 = store.filter (fun p => p._id != id) ∧
    (deletePersonById id (deletePersonById id store).2).1 =
      { status := 204, body := .empty } ∧
    (deletePersonById id (deletePersonById id store).2).2 =
      (deletePersonById id store).2 := by
  refine ⟨?_, ?_, ?_, ?_⟩ <;>
    simp [deletePersonById, h, filter_self_idem]

/-- Witness for C8: deleting a nonexistent well-formed id twice on the
one-record store. -/
theorem delete_idempotent_witness :
    isValidObjectId "cccccccccccccccccccccccc" = true ∧
    ((deletePersonById "cccccccccccccccccccccccc" [arto]).1 =
      { status := 204, body := .empty } ∧
    (deletePersonById "cccccccccccccccccccccccc" [arto]).2 =
      [arto].filter (fun p => p._id != "cccccccccccccccccccccccc") ∧
    (deletePersonById "cccccccccccccccccccccccc"
        (deletePersonById "cccccccccccccccccccccccc" [arto]).2).1 =
      { status := 204, body := .empty } ∧
    (deletePersonById "cccccccccccccccccccccccc"
        (deletePersonById "cccccccccccccccccccccccc" [arto]).2).2 =
      (deletePersonById "cccccccccccccccccccccccc" [arto]).2) :=
  ⟨by decide, delete_idempotent "cccccccccccccccccccccccc" [arto] (by decide)⟩

/-- Claim C9: for every store and any current date, GET /info responds
200 with the text/html fragment reporting exactly as many people as a
simultaneous list-all request returns records. -/
theorem info_count_matches_list (now : String) (store : List Person) :
    getInfo now store =
      { status := 200,
        body := .html ("Phonebook has info for "
          ++ toString (listCount (getPersons store)) ++ " people<br/>" ++ now) } := by
  simp [getInfo, getPersons, listCount]

/-- Claim C5: the serialization transform gives every transmitted record
a public string field `id` equal to the store-internal identifier,
removes the internal `_id` and `__v` fields, keeps `name` and `number`,
and is applied to every element of a list-all response. -/
theorem serialization_strips_internal_fields (p : Person) (store : List Person) :
    (toJSON p).lookup "id" = some (.str p._id) ∧
    (toJSON p).lookup "_id" = none ∧
    (toJSON p).lookup "__v" = none ∧
    (toJSON p).lookup "name" = some (.str p.name) ∧
    (toJSON p).lookup "number" =
      (match p.number with | some n => some (.str n) | none => none) ∧
    (getPersons store).body = .json (.arr (store.map (fun q => .obj (toJSON q)))) := by
  obtain ⟨i, nm, num, v⟩ := p
  cases num <;> exact ⟨rfl, rfl, rfl, rfl, rfl, rfl⟩

/-- Claim C6: a successful update of an existing record changes the
number field only: the returned and stored record keeps the old name and
id, its number is the one supplied in the body (the old one if the body
omits a number), and all other records are untouched, whatever else the
body contains. -/
theorem put_updates_number_only (id : String) (body : ReqBody)
    (store : List Person) (p : Person)
    (h1 : isValidObjectId id = true)
    (h2 : store.find? (fun q => q._id == id) = some p) :
    ∃ p' : Person,
      p'.name = p.name ∧ p'._id = p._id ∧
      p'.number = (match body.number with | some n => some n | none => p.number) ∧
      updatePersonById id body store =
        ({ status := 200, body := .json (.obj (toJSON p')) },
         store.map (fun q => if q._id == id then p' else q)) := by
  refine ⟨{ p with number := match body.number with
                             | some n => some n
                             | none => p.number },
    rfl, rfl, rfl, ?_⟩
  simp [updatePersonById, h1, h2]

/-- Witness for C6: updating the number of a stored record with a body
that also carries a name. -/
theorem put_updates_number_only_witness :
    isValidObjectId "aaaaaaaaaaaaaaaaaaaaaaaa" = true ∧
    [arto].find? (fun q => q._id == "aaaaaaaaaaaaaaaaaaaaaaaa") = some arto ∧
    (∃ p' : Person,
      p'.name = arto.name ∧ p'._id = arto._id ∧
      p'.number = (match (ReqBody.mk (some "Renamed") (some "045-9999999")).number with
                   | some n => some n
                   | none => arto.number) ∧
      updatePersonById "aaaaaaaaaaaaaaaaaaaaaaaa"
          (ReqBody.mk (some "Renamed") (some "045-9999999")) [arto] =
        ({ status := 200, body := .json (.obj (toJSON p')) },
         [arto].map (fun q => if q._id == "aaaaaaaaaaaaaaaaaaaaaaaa" then p' else q))) :=
  ⟨by decide, rfl,
    put_updates_number_only "aaaaaaaaaaaaaaaaaaaaaaaa"
      (ReqBody.mk (some "Renamed") (some "045-9999999")) [arto] arto (by decide) rfl⟩

/-- Claim C3 counterexample: a well-formed id that names no record makes
the final PUT handler respond 200 (with JSON body null), not 404 and not
400, contradicting the claim that a 200 success is never sent. -/
theorem put_nonexistent_returns_200 :
    isValidObjectId "aaaaaaaaaaaaaaaaaaaaaaaa" = true ∧
    ([] : List Person).find? (fun p => p._id == "aaaaaaaaaaaaaaaaaaaaaaaa") = none ∧
    (updatePersonById "aaaaaaaaaaaaaaaaaaaaaaaa"
        (ReqBody.mk none (some "040-123456")) []).1.status = 200 ∧
    (updatePersonById "aaaaaaaaaaaaaaaaaaaaaaaa"
        (ReqBody.mk none (some "040-123456")) []).1.status ≠ 404 ∧
    (updatePersonById "aaaaaaaaaaaaaaaaaaaaaaaa"
        (ReqBody.mk none (some "040-123456")) []).1.status ≠ 400 :=
  ⟨by decide, rfl, rfl, by decide, by decide⟩

/-- Claim C3 as amended: for every update request whose path id is well
formed but names no existing record, the final server responds 200 with
JSON body null and leaves the store unchanged. -/
theorem put_nonexistent_responds_null (id : String) (body : ReqBody)
    (store : List Person)
    (h1 : isValidObjectId id = true)
    (h2 : store.find? (fun p => p._id == id) = none) :
    updatePersonById id body store = ({ status := 200, body := .json .null }, store) := by
  simp [updatePersonById, h1, h2]

/-- Witness for the amended C3 at a well-formed id on the empty store. -/
theorem put_nonexistent_responds_null_witness :
    updatePersonById "aaaaaaaaaaaaaaaaaaaaaaaa"
        (ReqBody.mk none (some "040-123456")) [] =
      ({ status := 200, body := .json .null }, []) :=
  put_nonexistent_responds_null "aaaaaaaaaaaaaaaaaaaaaaaa"
    (ReqBody.mk none (some "040-123456")) [] (by decide) rfl

/-- Claim C1 (code behavior at the failing input): the number "123456"
violates the validator of the CLI schema, yet the server schema places
no constraint on number, so the final create handler accepts it with
200 and stores the record (a subsequent list contains it), and the final
update handler overwrites a stored valid number with it, also with
200. -/
theorem number_constraints_not_enforced :
    cliNumberValid (some "123456") = false ∧
    (createPerson (ReqBody.mk (some "Arto Hellas") (some "123456"))
        "bbbbbbbbbbbbbbbbbbbbbbbb" []).1.status = 200 ∧
    (createPerson (ReqBody.mk (some "Arto Hellas") (some "123456"))
        "bbbbbbbbbbbbbbbbbbbbbbbb" []).2 =
      [{ _id := "bbbbbbbbbbbbbbbbbbbbbbbb", name := "Arto Hellas",
         number := some "123456", __v := 0 }] ∧
    listCount (getPersons
      (createPerson (ReqBody.mk (some "Arto Hellas") (some "123456"))
        "bbbbbbbbbbbbbbbbbbbbbbbb" []).2) = 1 ∧
    (updatePersonById "aaaaaaaaaaaaaaaaaaaaaaaa"
        (ReqBody.mk none (some "123456")) [arto]).1.status = 200 ∧
    (updatePersonById "aaaaaaaaaaaaaaaaaaaaaaaa"
        (ReqBody.mk none (some "123456")) [arto]).2 =
      [{ arto with number := some "123456" }] :=
  ⟨by decide, rfl, by decide, rfl, rfl, by decide⟩

/-- Claim C2 (code behavior at the failing input): a create request with
a name but no number is accepted by the final POST handler with 200 and
the record is stored without a number, while a create request with no
name is rejected with 400 and the required-name validation message,
leaving the store unchanged. -/
theorem post_missing_number_accepted :
    (createPerson (ReqBody.mk (some "Arto Hellas") none)
        "bbbbbbbbbbbbbbbbbbbbbbbb" []).1.status = 200 ∧
    (createPerson (ReqBody.mk (some "Arto Hellas") none)
        "bbbbbbbbbbbbbbbbbbbbbbbb" []).2 =
      [{ _id := "bbbbbbbbbbbbbbbbbbbbbbbb", name := "Arto Hellas",
         number := none, __v := 0 }] ∧
    (createPerson (ReqBody.mk none (some "040-123456"))
        "bbbbbbbbbbbbbbbbbbbbbbbb" []).1 =
      errorHandler (.validationError
        "Person validation failed: name: Path `name` is required.") ∧
    (createPerson (ReqBody.mk none (some "040-123456"))
        "bbbbbbbbbbbbbbbbbbbbbbbb" []).2 = ([] : List Person) :=
  ⟨rfl, by decide, rfl, rfl⟩

end Phonebook
